import Mathlib

/-!
A shallow embedding of `qcengine/programs/molpro.py` (class `MolproHarness`):
`build_input`, `compute` and `parse_output`, together with theorems about the
properties a caller can rely on.

Modelling level.  `xml.etree.ElementTree` parsing, namespace resolution and
`float(...)` conversion of attribute text belong to the Python standard
library, so a report is represented here at the level of the already parsed
XML document, with numeric attributes already converted (Python floats are
modelled exactly, as rationals).  A property's `value` attribute is kept as
the list of its whitespace-separated numeric tokens, so the `float(value)`
call of the energy branch succeeds exactly when that list is a singleton;
its failure on any other shape is `ParseErr.valueError`.  Python dicts are
association lists with insert-or-replace update (`setKey`), first-match
lookup (`alookup`) and key removal (`delKey`); a failed subscript is
`ParseErr.keyError`.  `compute` is given the outside world (executable
presence, probed version, subprocess outcome) as an explicit environment and
returns, besides its result, the ordered list of pipeline stages it went
through.
-/

namespace Molpro

/-- A value stored in the `properties` dict: a Python float or a list of
floats (dipole moments). -/
inductive Val where
  | scalar (x : ℚ)
  | vector (xs : List ℚ)
  deriving DecidableEq

/-- `molecule` fields of the request (`input_model.molecule`). -/
structure Molecule where
  symbols : List String
  geometry : List (ℚ × ℚ × ℚ)
  molecular_charge : ℤ
  molecular_multiplicity : ℤ
  deriving DecidableEq

/-- `model` fields of the request (`input_model.model`). -/
structure Model where
  method : String
  basis : String
  deriving DecidableEq

/-- The request's `driver` field. -/
inductive Driver where
  | energy
  | gradient
  deriving DecidableEq

/-- The computation request (`input_model : ResultInput`). -/
structure ResultInput where
  molecule : Molecule
  model : Model
  driver : Driver
  deriving DecidableEq

/-- The job configuration (`config : JobConfig`): memory in GiB, core count,
optional scratch directory. -/
structure JobConfig where
  memory : ℚ
  ncores : ℕ
  scratch_directory : Option String
  deriving DecidableEq

/-- A `<property>` child of a jobstep: its `name` attribute and its `value`
attribute as the list of whitespace-separated numeric tokens. -/
structure ReportProperty where
  name : String
  value : List ℚ
  deriving DecidableEq

/-- A `<jobstep>` element: its `command` attribute, its `<property>` children
and the numeric contents of its `<gradient>` children. -/
structure JobStep where
  command : String
  properties : List ReportProperty
  gradients : List (List ℚ)
  deriving DecidableEq

/-- The `<molecule>` element of the report: its `method` and `energy`
attributes. -/
structure MoleculeTag where
  method : String
  energy : ℚ
  deriving DecidableEq

/-- The parsed `dispatch.xml` report. -/
structure Report where
  jobsteps : List JobStep
  molecule : MoleculeTag
  deriving DecidableEq

instance {ε α : Type} [DecidableEq ε] [DecidableEq α] : DecidableEq (Except ε α) := fun x y =>
  match x, y with
  | Except.ok a, Except.ok b =>
    if h : a = b then isTrue (by rw [h])
    else isFalse (fun hh => h (Except.ok.inj hh))
  | Except.error a, Except.error b =>
    if h : a = b then isTrue (by rw [h])
    else isFalse (fun hh => h (Except.error.inj hh))
  | Except.ok _, Except.error _ => isFalse (fun hh => Except.noConfusion hh)
  | Except.error _, Except.ok _ => isFalse (fun hh => Except.noConfusion hh)

/-- First-match lookup in an association list (Python `d[k]` / `k in d` on a
dict whose entries are inserted by `setKey`). -/
def alookup {β : Type} : List (String × β) → String → Option β
  | [], _ => none
  | (k', v) :: rest, k => if k' = k then some v else alookup rest k

/-- The `properties` dict built by `parse_output`. -/
abbrev Props := List (String × Val)

/-- Python `d[k] = v`: replace the entry if the key is present, append it
otherwise. -/
def setKey : Props → String → Val → Props
  | [], k, v => [(k, v)]
  | (k', v') :: rest, k, v =>
    if k' = k then (k, v) :: rest else (k', v') :: setKey rest k v

/-- Python `del d[k]`. -/
def delKey : Props → String → Props
  | [], _ => []
  | (k', v') :: rest, k =>
    if k' = k then delKey rest k else (k', v') :: delKey rest k

/-- One method family's declarative maps (`*_maps` dicts of `parse_output`). -/
structure MethodMaps where
  energy : List (String × String)
  dipole : List (String × String)
  extras : List (String × String)
  deriving DecidableEq

def scf_energy_map : List (String × String) := [("Energy", "scf_total_energy")]

def scf_dipole_map : List (String × String) := [("Dipole moment", "scf_dipole_moment")]

def mp2_energy_map : List (String × String) :=
  [("total energy", "mp2_total_energy"),
   ("correlation energy", "mp2_correlation_energy"),
   ("singlet pair energy", "mp2_singlet_pair_energy"),
   ("triplet pair energy", "mp2_triplet_pair_energy")]

def mp2_dipole_map : List (String × String) := [("Dipole moment", "mp2_dipole_moment")]

def ccsd_energy_map : List (String × String) :=
  [("total energy", "ccsd_total_energy"),
   ("correlation energy", "ccsd_correlation_energy"),
   ("singlet pair energy", "ccsd_singlet_pair_energy"),
   ("triplet pair energy", "ccsd_triplet_pair_energy")]

def ccsd_dipole_map : List (String × String) := [("Dipole moment", "ccsd_dipole_moment")]

def scf_maps : MethodMaps := ⟨scf_energy_map, scf_dipole_map, []⟩

def mp2_maps : MethodMaps := ⟨mp2_energy_map, mp2_dipole_map, []⟩

def ccsd_maps : MethodMaps := ⟨ccsd_energy_map, ccsd_dipole_map, []⟩

def scf_methods : List (String × MethodMaps) := [("HF", scf_maps), ("RHF", scf_maps)]

def post_hf_methods : List (String × MethodMaps) := [("MP2", mp2_maps), ("CCSD", ccsd_maps)]

/-- `{**scf_methods, **post_hf_methods}` (the key sets are disjoint, so the
dict merge is list concatenation). -/
def supported_methods : List (String × MethodMaps) := scf_methods ++ post_hf_methods

/-- `pat` occurs as a contiguous run inside the second list (Python
`pat in s` on strings). -/
def listContainsSub (pat : List Char) : List Char → Bool
  | [] => pat.isEmpty
  | c :: rest => pat.isPrefixOf (c :: rest) || listContainsSub pat rest

/-- Python `pat in s` for strings. -/
def hasSub (s pat : String) : Bool := listContainsSub pat.toList s.toList

/-- Python `s[:-4]`. -/
def dropLast4 (s : String) : String := String.mk (s.toList.take (s.toList.length - 4))

/-- The command normalization of `parse_output` (lines 221-223):
`if '-SCF' in command: command = command[:-4]`. -/
def stripSCF (command : String) : String :=
  if hasSub command "-SCF" then dropLast4 command else command

/-- The normalization claim C7 describes: strip `-SCF` exactly when it is a
trailing suffix, leave every other command unchanged.  Stated from the
spec's words, for comparison with `stripSCF`. -/
def specStripTrailingSCF (command : String) : String :=
  if "-SCF".toList.isSuffixOf command.toList then dropLast4 command else command

/-- Exceptions `parse_output` can raise: `KeyError` (failed dict subscript,
carrying the missing key, or the final energy-not-found message) and
`ValueError` (a `float(...)` call on text that is not a single float). -/
inductive ParseErr where
  | keyError (key : String)
  | valueError (what : String)
  deriving DecidableEq

/-- One `<property>` child of a matched jobstep (lines 227-232): record the
mapped canonical key with the float value when the name is in the family's
energy map, with the float list when it is in the dipole map. -/
def applyProperty (maps : MethodMaps) (props : Props) (p : ReportProperty) :
    Except ParseErr Props :=
  match alookup maps.energy p.name with
  | some key =>
    match p.value with
    | [x] => Except.ok (setKey props key (Val.scalar x))
    | _ => Except.error (ParseErr.valueError p.name)
  | none =>
    match alookup maps.dipole p.name with
    | some key => Except.ok (setKey props key (Val.vector p.value))
    | none => Except.ok props

/-- The inner `for child in jobstep.findall('molpro_uri:property', ...)` loop. -/
def applyProps (maps : MethodMaps) : Props → List ReportProperty → Except ParseErr Props
  | props, [] => Except.ok props
  | props, p :: rest =>
    match applyProperty maps props p with
    | Except.ok props' => applyProps maps props' rest
    | Except.error e => Except.error e

/-- One `<jobstep>` (lines 218-237): normalize the command, scan property
children when it names a supported method, otherwise grab the gradient when
the raw command mentions `FORCE` (each `<gradient>` child overwrites
`return_result`; the last one wins). -/
def applyJobStep (st : Props × Option (List ℚ)) (js : JobStep) :
    Except ParseErr (Props × Option (List ℚ)) :=
  let command := stripSCF js.command
  match alookup supported_methods command with
  | some maps =>
    match applyProps maps st.1 js.properties with
    | Except.ok props => Except.ok (props, st.2)
    | Except.error e => Except.error e
  | none =>
    if hasSub js.command "FORCE" then
      Except.ok (st.1, js.gradients.foldl (fun _ g => some g) st.2)
    else
      Except.ok st

/-- The outer `for jobstep in root.findall(...)` loop. -/
def collectLoop :
    Props × Option (List ℚ) → List JobStep → Except ParseErr (Props × Option (List ℚ))
  | st, [] => Except.ok st
  | st, js :: rest =>
    match applyJobStep st js with
    | Except.ok st' => collectLoop st' rest
    | Except.error e => Except.error e

/-- Everything `parse_output` captures from the jobstep elements: the
properties dict and the optional gradient (`output_data['return_result']`). -/
def collectSteps (r : Report) : Except ParseErr (Props × Option (List ℚ)) :=
  collectLoop ([], none) r.jobsteps

/-- One spin-decomposition block (lines 240-254): when both pair energies of
the family were captured, replace them by the same-spin and opposite-spin
combinations and delete the original keys.  The keys named here are only
ever populated through an energy map, hence with scalars, so the scalar
match coincides with the source's key-presence test. -/
def spinFam (sk tk samek oppk : String) (props : Props) : Props :=
  match alookup props sk, alookup props tk with
  | some (Val.scalar s), some (Val.scalar t) =>
    delKey (delKey (setKey (setKey props samek (Val.scalar (2 / 3 * t)))
      oppk (Val.scalar (1 / 3 * t + s))) sk) tk
  | _, _ => props

/-- The two spin-decomposition blocks, MP2 first, then CCSD. -/
def spinDecompose (props : Props) : Props :=
  spinFam "ccsd_singlet_pair_energy" "ccsd_triplet_pair_energy"
    "ccsd_same_spin_correlation_energy" "ccsd_opposite_spin_correlation_energy"
    (spinFam "mp2_singlet_pair_energy" "mp2_triplet_pair_energy"
      "mp2_same_spin_correlation_energy" "mp2_opposite_spin_correlation_energy" props)

/-- Read a float-valued entry back from the properties dict (a failed
subscript is `KeyError`; a list where a float is needed would be the
`TypeError` of float arithmetic on a list, folded into `valueError` here —
energy-map keys only ever hold scalars, so that branch is dead on states
`collectSteps` can produce). -/
def getScalar (props : Props) (k : String) : Except ParseErr ℚ :=
  match alookup props k with
  | some (Val.scalar x) => Except.ok x
  | some (Val.vector _) => Except.error (ParseErr.valueError k)
  | none => Except.error (ParseErr.keyError k)

/-- `final_energy = properties[key]` where a float is expected. -/
def asScalar (k : String) (v : Val) : Except ParseErr ℚ :=
  match v with
  | Val.scalar x => Except.ok x
  | Val.vector _ => Except.error (ParseErr.valueError k)

/-- The molecule-tag fallback (lines 270-279): if the molecule element's
method equals the requested one, its energy is authoritative and is written
back into the properties dict (deriving the correlation energy for post-HF
methods); otherwise `KeyError("Could not find {method} total energy")`. -/
def fallbackMol (mol : MoleculeTag) (method : String)
    (emap : List (String × String)) (props : Props) : Except ParseErr (ℚ × Props) :=
  if mol.method = method then
    if (alookup post_hf_methods method).isSome then
      match alookup emap "total energy" with
      | none => Except.error (ParseErr.keyError "total energy")
      | some tkey =>
        let props1 := setKey props tkey (Val.scalar mol.energy)
        match getScalar props1 "scf_total_energy" with
        | Except.error e => Except.error e
        | Except.ok scf =>
          match alookup emap "correlation energy" with
          | none => Except.error (ParseErr.keyError "correlation energy")
          | some ckey =>
            Except.ok (mol.energy, setKey props1 ckey (Val.scalar (mol.energy - scf)))
    else if (alookup scf_methods method).isSome then
      match alookup emap "Energy" with
      | none => Except.error (ParseErr.keyError "Energy")
      | some ekey => Except.ok (mol.energy, setKey props ekey (Val.scalar mol.energy))
    else
      Except.ok (mol.energy, props)
  else
    Except.error (ParseErr.keyError ("Could not find " ++ method ++ " total energy"))

/-- Final-energy resolution (lines 263-279).  The method-map subscript
`supported_methods[method]` comes first and raises `KeyError(method)` for an
unsupported method; then the dedicated property key is preferred, and the
molecule-tag fallback is tried last. -/
def resolveFinal (mol : MoleculeTag) (method : String) (props : Props) :
    Except ParseErr (ℚ × Props) :=
  match alookup supported_methods method with
  | none => Except.error (ParseErr.keyError method)
  | some maps =>
    if (alookup post_hf_methods method).isSome then
      match alookup maps.energy "total energy" with
      | none => Except.error (ParseErr.keyError "total energy")
      | some tkey =>
        match alookup props tkey with
        | some v =>
          match asScalar tkey v with
          | Except.ok x => Except.ok (x, props)
          | Except.error e => Except.error e
        | none => fallbackMol mol method maps.energy props
    else if (alookup scf_methods method).isSome then
      match alookup maps.energy "Energy" with
      | none => Except.error (ParseErr.keyError "Energy")
      | some ekey =>
        match alookup props ekey with
        | some v =>
          match asScalar ekey v with
          | Except.ok x => Except.ok (x, props)
          | Except.error e => Except.error e
        | none => fallbackMol mol method maps.energy props
    else
      fallbackMol mol method maps.energy props

/-- The successful result (`Result(**{**input_model.dict(), **output_data})`). -/
structure ResultRecord where
  molecule : Molecule
  model : Model
  driver : Driver
  return_result : Val
  properties : Props
  success : Bool
  deriving DecidableEq

/-- `MolproHarness.parse_output` (lines 157-289) over the parsed report. -/
def parse_output (outReport : Report) (input : ResultInput) :
    Except ParseErr ResultRecord :=
  match collectSteps outReport with
  | Except.error e => Except.error e
  | Except.ok (props0, grad) =>
    let props := spinDecompose props0
    match resolveFinal outReport.molecule input.model.method props with
    | Except.error e => Except.error e
    | Except.ok (finalE, props') =>
      Except.ok
        { molecule := input.molecule
          model := input.model
          driver := input.driver
          return_result :=
            match grad with
            | some g => Val.vector g
            | none => Val.scalar finalE
          properties := props'
          success := true }

/-- The return-result projection of a parse outcome, `none` on failure. -/
def parsedReturn (x : Except ParseErr ResultRecord) : Option Val :=
  match x with
  | Except.ok r => some r.return_result
  | Except.error _ => none

/-- The lookup of key `k` in the properties of a parse outcome, `none` on
failure (the inner level is the dict lookup itself). -/
def parsedProp (x : Except ParseErr ResultRecord) (k : String) : Option (Option Val) :=
  match x with
  | Except.ok r => some (alookup r.properties k)
  | Except.error _ => none

/-- The canonical total/SCF energy key `resolveFinal` checks and backfills
for a supported method (`""` for unsupported ones). -/
def canonicalKeyD : String → String
  | "MP2" => "mp2_total_energy"
  | "CCSD" => "ccsd_total_energy"
  | "HF" => "scf_total_energy"
  | "RHF" => "scf_total_energy"
  | _ => ""

/-- The correlation-energy key the post-HF fallback backfills. -/
def corrKeyD : String → String
  | "MP2" => "mp2_correlation_energy"
  | "CCSD" => "ccsd_correlation_energy"
  | _ => ""

/-- Python `int(...)` on a float: truncation toward zero. -/
def pyInt (q : ℚ) : ℤ := if q < 0 then ⌈q⌉ else ⌊q⌋

/-- Round to the nearest integer, ties to the even one (the rounding of
Python's fixed-point float formatting). -/
def roundHalfEven (q : ℚ) : ℤ :=
  let f := ⌊q⌋
  let r := q - (f : ℚ)
  if r < 1 / 2 then f
  else if 1 / 2 < r then f + 1
  else if f % 2 = 0 then f else f + 1

/-- The last `w` decimal digits of `n`, zero-padded to exactly `w`
characters: the fractional digits of a fixed-point rendering. -/
def fixedDigits : ℕ → ℕ → List Char
  | 0, _ => []
  | w + 1, n => fixedDigits w (n / 10) ++ [Nat.digitChar (n % 10)]

/-- Python `'{:.<prec>f}'.format(q)`: sign, integer digits, a dot, exactly
`prec` fractional digits. -/
def formatFixed (prec : ℕ) (q : ℚ) : String :=
  let m := (roundHalfEven (|q| * (10 : ℚ) ^ prec)).toNat
  (if q < 0 then "-" else "") ++ Nat.repr (m / 10 ^ prec) ++ "." ++
    String.mk (fixedDigits prec (m % 10 ^ prec))

/-- Python `'{:<w}'.format(s)`: left-justify in a field of width `w`,
padding with spaces on the right. -/
def ljust (s : String) (w : ℕ) : String :=
  s ++ String.mk (List.replicate (w - s.length) ' ')

/-- Python `'{:>w}'.format(s)`: right-justify in a field of width `w`,
padding with spaces on the left. -/
def rjust (s : String) (w : ℕ) : String :=
  String.mk (List.replicate (w - s.length) ' ') ++ s

/-- One line of the geometry block (line 118 of the source):
`"{:<4s} {:>14.10f} {:>14.10f} {:>14.10f}".format(sym, *geom)`. -/
def geomLine (sym : String) (g : ℚ × ℚ × ℚ) : String :=
  ljust sym 4 ++ " " ++ rjust (formatFixed 10 g.1) 14 ++ " " ++
    rjust (formatFixed 10 g.2.1) 14 ++ " " ++ rjust (formatFixed 10 g.2.2) 14

/-- Python `s.lower()`: lower-case every character. -/
def pyLower (s : String) : String := String.mk (s.toList.map Char.toLower)

/-- The post-HF method spellings `build_input` recognizes (after
lower-casing the requested method). -/
def posthf_methods : List String := ["mp2", "ccsd", "ccsd(t)"]

/-- The six lines `build_input` emits before the geometry lines: title,
memory directive, symmetry-off directive and the opening of the geometry
block (lines 103-116). -/
def headLines (config : JobConfig) : List String :=
  ["!Title",
   "memory," ++ toString (pyInt (config.memory * 1024 ^ 3 / 8000000 / (config.ncores : ℚ))) ++ ",M",
   "",
   "\x7bsymmetry,nosym\x7d",
   "",
   "geometry=\x7b"]

/-- The geometry block's body: one formatted line per
`zip(symbols, geometry)` pair (lines 117-120). -/
def geomBlockLines (input : ResultInput) : List String :=
  (input.molecule.symbols.zip input.molecule.geometry).map (fun p => geomLine p.1 p.2)

/-- Everything `build_input` emits after the geometry lines: block close,
charge/multiplicity, basis block, the optional HF reference step, the
method call and the optional force call (lines 121-144). -/
def tailLines (input : ResultInput) : List String :=
  ["\x7d",
   "set,charge=" ++ toString input.molecule.molecular_charge,
   "set,multiplicity=" ++ toString input.molecule.molecular_multiplicity,
   "",
   "basis=\x7b",
   "default," ++ input.model.basis,
   "\x7d",
   ""]
  ++ (if pyLower input.model.method ∈ posthf_methods then ["\x7bHF\x7d"] else [])
  ++ ["\x7b" ++ input.model.method ++ "\x7d"]
  ++ (if input.driver = Driver.gradient then ["", "\x7bforce\x7d"] else [])

/-- The lines of the `dispatch.mol` input file, in order (`input_file` list
of `build_input`, lines 99-146). -/
def inputLines (input : ResultInput) (config : JobConfig) : List String :=
  headLines config ++ geomBlockLines input ++ tailLines input

/-- What `build_input` returns. -/
structure InputDescriptor where
  commands : List String
  infiles : List (String × String)
  scratch_location : Option String
  input_result : ResultInput
  deriving DecidableEq

/-- `MolproHarness.build_input` (lines 97-155). -/
def build_input (input : ResultInput) (config : JobConfig) : InputDescriptor :=
  { commands := ["molpro", "dispatch.mol", "-d", ".", "-W", ".", "-n", Nat.repr config.ncores]
    infiles := [("dispatch.mol", String.intercalate "\n" (inputLines input config))]
    scratch_location := config.scratch_directory
    input_result := input }

/-- The outcome the external `execute` utility reports for the main job:
success flag, the parsed `dispatch.xml` (on success), captured stderr (on
failure). -/
structure ExecOutcome where
  success : Bool
  outfiles : Report
  stderr : String
  deriving DecidableEq

/-- The outside world as `compute` observes it: whether `which('molpro')`
finds the executable, the version the probe reports (major, minor), and the
main job's subprocess outcome. -/
structure ComputeEnv where
  found : Bool
  version : ℕ × ℕ
  outcome : ExecOutcome
  deriving DecidableEq

/-- The stages of the `compute` pipeline, in the order they run. -/
inductive Ev where
  | foundCheck
  | versionCheck
  | buildInputStep
  | mainExecute
  | parseStep
  deriving DecidableEq

/-- The exceptions `compute` lets escape: the missing-executable error of
`found(raise_error=True)`, the `TypeError` of the version floor, and any
parse exception (propagated uncaught, per the source). -/
inductive ComputeErr where
  | notFound
  | unsupportedVersion (major minor : ℕ)
  | parseFailure (e : ParseErr)
  deriving DecidableEq

/-- `FailedOperation`: the structured failure `compute` returns when the
subprocess did not succeed. -/
structure FailureRecord where
  success : Bool
  error_type : String
  error_message : String
  deriving DecidableEq

/-- A completed `compute` call: a result record or a structured failure. -/
inductive ComputeOut where
  | result (r : ResultRecord)
  | failure (f : FailureRecord)
  deriving DecidableEq

/-- `parse_version(a) < parse_version(b)` on `major.minor` versions:
lexicographic comparison. -/
def versionLt (a b : ℕ × ℕ) : Bool := a.1 < b.1 || (a.1 == b.1 && a.2 < b.2)

/-- `MolproHarness.compute` (lines 56-90), returning both the list of
pipeline stages that ran and the outcome.  The version floor is
`parse_version(self.get_version()) < parse_version("2018.1")`. -/
def compute (env : ComputeEnv) (input : ResultInput) (config : JobConfig) :
    List Ev × Except ComputeErr ComputeOut :=
  if env.found = false then
    ([Ev.foundCheck], Except.error ComputeErr.notFound)
  else if versionLt env.version (2018, 1) then
    ([Ev.foundCheck, Ev.versionCheck],
      Except.error (ComputeErr.unsupportedVersion env.version.1 env.version.2))
  else
    let _job := build_input input config
    if env.outcome.success = false then
      ([Ev.foundCheck, Ev.versionCheck, Ev.buildInputStep, Ev.mainExecute],
        Except.ok (ComputeOut.failure
          { success := false
            error_type := "internal_error"
            error_message := env.outcome.stderr }))
    else
      match parse_output env.outcome.outfiles input with
      | Except.ok r =>
        ([Ev.foundCheck, Ev.versionCheck, Ev.buildInputStep, Ev.mainExecute, Ev.parseStep],
          Except.ok (ComputeOut.result r))
      | Except.error e =>
        ([Ev.foundCheck, Ev.versionCheck, Ev.buildInputStep, Ev.mainExecute, Ev.parseStep],
          Except.error (ComputeErr.parseFailure e))

/-! Concrete fixtures used by the witness theorems. -/

def sampleMolecule : Molecule :=
  { symbols := ["H", "H"]
    geometry := [(0, 0, 0), (0, 0, 7 / 5)]
    molecular_charge := 0
    molecular_multiplicity := 1 }

def sampleConfig : JobConfig := { memory := 2, ncores := 2, scratch_directory := none }

def inputHF : ResultInput :=
  { molecule := sampleMolecule
    model := { method := "HF", basis := "cc-pVDZ" }
    driver := Driver.energy }

def inputMP2 : ResultInput :=
  { molecule := sampleMolecule
    model := { method := "MP2", basis := "cc-pVDZ" }
    driver := Driver.energy }

def inputCCSDpT : ResultInput :=
  { molecule := sampleMolecule
    model := { method := "ccsd(t)", basis := "cc-pVDZ" }
    driver := Driver.energy }

/-- An SCF jobstep whose `Energy` property is `-76`. -/
def stepHF : JobStep :=
  { command := "RHF-SCF", properties := [{ name := "Energy", value := [-76] }], gradients := [] }

def reportHF : Report :=
  { jobsteps := [{ command := "HF", properties := [{ name := "Energy", value := [-1234567 / 1000000] }], gradients := [] }]
    molecule := { method := "HF", energy := -1234567 / 1000000 } }

/-- An MP2 run whose pair energies were captured. -/
def reportMP2pairs : Report :=
  { jobsteps :=
      [stepHF,
       { command := "MP2"
         properties :=
           [{ name := "total energy", value := [-77] },
            { name := "singlet pair energy", value := [-1] },
            { name := "triplet pair energy", value := [-2] }]
         gradients := [] }]
    molecule := { method := "MP2", energy := -77 } }

/-- The properties `collectSteps` extracts from `reportMP2pairs`. -/
def mp2PairsProps : Props :=
  [("scf_total_energy", Val.scalar (-76)),
   ("mp2_total_energy", Val.scalar (-77)),
   ("mp2_singlet_pair_energy", Val.scalar (-1)),
   ("mp2_triplet_pair_energy", Val.scalar (-2))]

/-- The record `parse_output` produces for `reportMP2pairs` with an MP2
request: pair energies replaced by their spin components. -/
def mp2PairsResult : ResultRecord where
  molecule := sampleMolecule
  model := { method := "MP2", basis := "cc-pVDZ" }
  driver := Driver.energy
  return_result := Val.scalar (-77)
  properties :=
    [("scf_total_energy", Val.scalar (-76)),
     ("mp2_total_energy", Val.scalar (-77)),
     ("mp2_same_spin_correlation_energy", Val.scalar (2 / 3 * -2)),
     ("mp2_opposite_spin_correlation_energy", Val.scalar (1 / 3 * -2 + -1))]
  success := true

/-- An MP2 request whose report has only the SCF block; the molecule tag
carries the MP2 energy. -/
def reportMP2fallback : Report :=
  { jobsteps := [stepHF], molecule := { method := "MP2", energy := -77 } }

/-- A report whose molecule tag names a different method than `MP2` and
whose jobsteps never populate the MP2 keys. -/
def reportMismatch : Report :=
  { jobsteps := [stepHF], molecule := { method := "RHF", energy := -76 } }

/-- A report whose molecule tag names the (unsupported) method `ccsd(t)`. -/
def reportCCSDpT : Report :=
  { jobsteps := [stepHF], molecule := { method := "ccsd(t)", energy := -763 / 10 } }

/-- An environment whose probe reports version 2017.1. -/
def envOld : ComputeEnv :=
  { found := true
    version := (2017, 1)
    outcome := { success := true, outfiles := reportHF, stderr := "" } }

/-- An environment whose main-job subprocess fails with stderr "boom". -/
def envFail : ComputeEnv :=
  { found := true
    version := (2019, 2)
    outcome := { success := false, outfiles := reportHF, stderr := "boom" } }

/-! Dictionary lemmas. -/

theorem alookup_setKey_self (p : Props) (k : String) (v : Val) :
    alookup (setKey p k v) k = some v := by
  induction p with
  | nil => simp [setKey, alookup]
  | cons hd tl ih =>
    obtain ⟨k', v'⟩ := hd
    by_cases h : k' = k
    · simp [setKey, h, alookup]
    · simp [setKey, h, alookup, ih]

theorem alookup_setKey_ne (p : Props) {k k' : String} (v : Val) (h : k' ≠ k) :
    alookup (setKey p k v) k' = alookup p k' := by
  induction p with
  | nil => simp [setKey, alookup, Ne.symm h]
  | cons hd tl ih =>
    obtain ⟨k0, v0⟩ := hd
    by_cases h0 : k0 = k
    · subst h0
      simp [setKey, alookup, Ne.symm h]
    · simp only [setKey, if_neg h0, alookup]
      by_cases h1 : k0 = k'
      · simp [h1]
      · simp [h1, ih]

theorem alookup_delKey_self (p : Props) (k : String) :
    alookup (delKey p k) k = none := by
  induction p with
  | nil => simp [delKey, alookup]
  | cons hd tl ih =>
    obtain ⟨k', v'⟩ := hd
    by_cases h : k' = k
    · simp [delKey, h, ih]
    · simp [delKey, h, alookup, ih]

theorem alookup_delKey_ne (p : Props) {k k' : String} (h : k' ≠ k) :
    alookup (delKey p k) k' = alookup p k' := by
  induction p with
  | nil => simp [delKey]
  | cons hd tl ih =>
    obtain ⟨k0, v0⟩ := hd
    by_cases h0 : k0 = k
    · subst h0
      simp [delKey, alookup, ih, Ne.symm h]
    · simp only [delKey, if_neg h0, alookup]
      by_cases h1 : k0 = k'
      · simp [h1]
      · simp [h1, ih]

/-! Spin-decomposition lemmas. -/

theorem spinFam_lookup_ne (sk tk samek oppk k : String) (p : Props)
    (h1 : k ≠ samek) (h2 : k ≠ oppk) (h3 : k ≠ sk) (h4 : k ≠ tk) :
    alookup (spinFam sk tk samek oppk p) k = alookup p k := by
  unfold spinFam
  split
  · rw [alookup_delKey_ne _ h4, alookup_delKey_ne _ h3,
      alookup_setKey_ne _ _ h2, alookup_setKey_ne _ _ h1]
  · rfl

theorem spinFam_fire (sk tk samek oppk : String) (p : Props) (s t : ℚ)
    (hs : alookup p sk = some (Val.scalar s)) (ht : alookup p tk = some (Val.scalar t))
    (hst : sk ≠ tk) (has1 : samek ≠ sk) (has2 : samek ≠ tk)
    (hao1 : oppk ≠ sk) (hao2 : oppk ≠ tk) (hso : samek ≠ oppk) :
    alookup (spinFam sk tk samek oppk p) samek = some (Val.scalar (2 / 3 * t)) ∧
    alookup (spinFam sk tk samek oppk p) oppk = some (Val.scalar (1 / 3 * t + s)) ∧
    alookup (spinFam sk tk samek oppk p) sk = none ∧
    alookup (spinFam sk tk samek oppk p) tk = none := by
  unfold spinFam
  rw [hs, ht]
  refine ⟨?_, ?_, ?_, ?_⟩
  · rw [alookup_delKey_ne _ has2, alookup_delKey_ne _ has1,
      alookup_setKey_ne _ _ hso, alookup_setKey_self]
  · rw [alookup_delKey_ne _ hao2, alookup_delKey_ne _ hao1, alookup_setKey_self]
  · rw [alookup_delKey_ne _ hst, alookup_delKey_self]
  · rw [alookup_delKey_self]

/-- Claim C5: whenever the probed executable version compares below 2018.1,
`compute` raises the unsupported-version error after only the
presence and version checks: the main job's input is never built and the
main-job subprocess execution is never reached. -/
theorem claim_C5_version_floor (env : ComputeEnv) (input : ResultInput) (config : JobConfig)
    (hfound : env.found = true) (hver : versionLt env.version (2018, 1) = true) :
    compute env input config =
      ([Ev.foundCheck, Ev.versionCheck],
        Except.error (ComputeErr.unsupportedVersion env.version.1 env.version.2)) ∧
    Ev.buildInputStep ∉ (compute env input config).1 ∧
    Ev.mainExecute ∉ (compute env input config).1 := by
  have h1 : compute env input config =
      ([Ev.foundCheck, Ev.versionCheck],
        Except.error (ComputeErr.unsupportedVersion env.version.1 env.version.2)) := by
    simp [compute, hfound, hver]
  refine ⟨h1, ?_, ?_⟩ <;> rw [h1] <;> simp

/-- Witness for C5 at version 2017.1: rejected with no input built and no
main-job execution. -/
theorem claim_C5_version_floor_witness :
    envOld.found = true ∧ versionLt envOld.version (2018, 1) = true ∧
    (compute envOld inputHF sampleConfig =
        ([Ev.foundCheck, Ev.versionCheck],
          Except.error (ComputeErr.unsupportedVersion envOld.version.1 envOld.version.2)) ∧
      Ev.buildInputStep ∉ (compute envOld inputHF sampleConfig).1 ∧
      Ev.mainExecute ∉ (compute envOld inputHF sampleConfig).1) :=
  ⟨rfl, by decide, claim_C5_version_floor envOld inputHF sampleConfig rfl (by decide)⟩

/-- Claim C6: when the main-job subprocess reports non-success, `compute`
returns a structured failure (not an exception) whose `error_message` is the
captured stderr, the parser never runs, and exactly one execution was
attempted. -/
theorem claim_C6_failure_record (env : ComputeEnv) (input : ResultInput) (config : JobConfig)
    (hfound : env.found = true) (hver : versionLt env.version (2018, 1) = false)
    (hexec : env.outcome.success = false) :
    compute env input config =
      ([Ev.foundCheck, Ev.versionCheck, Ev.buildInputStep, Ev.mainExecute],
        Except.ok (ComputeOut.failure
          { success := false
            error_type := "internal_error"
            error_message := env.outcome.stderr })) ∧
    Ev.parseStep ∉ (compute env input config).1 ∧
    (compute env input config).1.count Ev.mainExecute = 1 := by
  have h1 : compute env input config =
      ([Ev.foundCheck, Ev.versionCheck, Ev.buildInputStep, Ev.mainExecute],
        Except.ok (ComputeOut.failure
          { success := false
            error_type := "internal_error"
            error_message := env.outcome.stderr })) := by
    simp [compute, hfound, hver, hexec]
  refine ⟨h1, ?_, ?_⟩ <;> rw [h1] <;> simp [List.count_cons]

/-- Witness for C6: a failing subprocess with stderr "boom" yields the
structured failure record carrying "boom". -/
theorem claim_C6_failure_record_witness :
    envFail.found = true ∧ versionLt envFail.version (2018, 1) = false ∧
    envFail.outcome.success = false ∧
    (compute envFail inputHF sampleConfig =
        ([Ev.foundCheck, Ev.versionCheck, Ev.buildInputStep, Ev.mainExecute],
          Except.ok (ComputeOut.failure
            { success := false
              error_type := "internal_error"
              error_message := envFail.outcome.stderr })) ∧
      Ev.parseStep ∉ (compute envFail inputHF sampleConfig).1 ∧
      (compute envFail inputHF sampleConfig).1.count Ev.mainExecute = 1) :=
  ⟨rfl, by decide, rfl,
    claim_C6_failure_record envFail inputHF sampleConfig rfl (by decide) rfl⟩

/-- Claim C7, counterexample: the source strips the last four characters of
any command merely containing `-SCF`, not only a trailing `-SCF` suffix.
On `"MP2-SCFX"` — which has no trailing `-SCF` suffix, so the claimed
normalization leaves it unchanged — the code yields `"MP2-"`. -/
theorem claim_C7_strip_scf_counterexample :
    specStripTrailingSCF "MP2-SCFX" = "MP2-SCFX" ∧
    stripSCF "MP2-SCFX" = "MP2-" ∧
    stripSCF "MP2-SCFX" ≠ specStripTrailingSCF "MP2-SCFX" := by
  decide

/-- The infix pattern `-SCF` is found at the end of any string. -/
theorem listContainsSub_scf_append (xs : List Char) :
    listContainsSub "-SCF".toList (xs ++ "-SCF".toList) = true := by
  induction xs with
  | nil => decide
  | cons c rest ih =>
    rw [List.cons_append]
    show ("-SCF".toList.isPrefixOf (c :: (rest ++ "-SCF".toList)) ||
      listContainsSub "-SCF".toList (rest ++ "-SCF".toList)) = true
    rw [ih, Bool.or_true]

/-- Claim C7, amended: a command containing `-SCF` anywhere has its last
four characters removed before the method-family match (so a trailing
`-SCF` is stripped exactly), and a command not containing `-SCF` is matched
unchanged. -/
theorem claim_C7_strip_scf (p c d : String)
    (hnc : hasSub c "-SCF" = false) (hd : hasSub d "-SCF" = true) :
    stripSCF (p ++ "-SCF") = p ∧ stripSCF c = c ∧ stripSCF d = dropLast4 d := by
  refine ⟨?_, ?_, ?_⟩
  · have hh : hasSub (p ++ "-SCF") "-SCF" = true := by
      show listContainsSub "-SCF".toList (p ++ "-SCF").toList = true
      have hdata : (p ++ "-SCF").toList = p.toList ++ "-SCF".toList := by
        cases p with
        | mk l => rfl
      rw [hdata]
      exact listContainsSub_scf_append p.toList
    rw [stripSCF, hh]
    show dropLast4 (p ++ "-SCF") = p
    have hdata : (p ++ "-SCF").toList = p.toList ++ "-SCF".toList := by
      cases p with
      | mk l => rfl
    rw [dropLast4, hdata]
    have hlen : (p.toList ++ "-SCF".toList).length - 4 = p.toList.length := by
      simp
    rw [hlen, List.take_left]
    cases p with
    | mk l => rfl
  · simp [stripSCF, hnc]
  · simp [stripSCF, hd]

/-- Witness for the amended C7: `RHF-SCF` strips to `RHF`, `CCSD` (no
`-SCF`) is unchanged, and `MP2-SCF` loses its last four characters. -/
theorem claim_C7_strip_scf_witness :
    hasSub "CCSD" "-SCF" = false ∧ hasSub "MP2-SCF" "-SCF" = true ∧
    (stripSCF ("RHF" ++ "-SCF") = "RHF" ∧ stripSCF "CCSD" = "CCSD" ∧
      stripSCF "MP2-SCF" = dropLast4 "MP2-SCF") :=
  ⟨by decide, by decide, claim_C7_strip_scf "RHF" "CCSD" "MP2-SCF" (by decide) (by decide)⟩

/-- Claim C9: the memory directive of the built input is
`memory,<k>,M` with `k = floor(memory_GiB * 2^30 / 8e6 / ncores)`. -/
theorem claim_C9_memory_directive (input : ResultInput) (config : JobConfig)
    (hm : 0 ≤ config.memory) (hn : 1 ≤ config.ncores) :
    (build_input input config).infiles =
      [("dispatch.mol", String.intercalate "\n" (inputLines input config))] ∧
    (inputLines input config)[1]? =
      some ("memory," ++
        toString ⌊config.memory * 2 ^ 30 / 8000000 / (config.ncores : ℚ)⌋ ++ ",M") := by
  refine ⟨rfl, ?_⟩
  have hq : (0 : ℚ) ≤ config.memory * 1024 ^ 3 / 8000000 / (config.ncores : ℚ) := by
    positivity
  have hpy : pyInt (config.memory * 1024 ^ 3 / 8000000 / (config.ncores : ℚ)) =
      ⌊config.memory * 2 ^ 30 / 8000000 / (config.ncores : ℚ)⌋ := by
    rw [pyInt, if_neg (by exact not_lt.mpr hq)]
    norm_num
  simp [inputLines, headLines, hpy]

/-- Witness for C9: 2 GiB over 2 cores gives `memory,134,M`. -/
theorem claim_C9_memory_directive_witness :
    (0 : ℚ) ≤ sampleConfig.memory ∧ 1 ≤ sampleConfig.ncores ∧
    ((build_input inputHF sampleConfig).infiles =
        [("dispatch.mol", String.intercalate "\n" (inputLines inputHF sampleConfig))] ∧
      (inputLines inputHF sampleConfig)[1]? =
        some ("memory," ++
          toString ⌊sampleConfig.memory * 2 ^ 30 / 8000000 / (sampleConfig.ncores : ℚ)⌋ ++ ",M")) :=
  ⟨by norm_num [sampleConfig], by decide,
    claim_C9_memory_directive inputHF sampleConfig (by norm_num [sampleConfig]) (by decide)⟩

/-- The fractional rendering always has exactly `w` digits. -/
theorem fixedDigits_length (w : ℕ) : ∀ n : ℕ, (fixedDigits w n).length = w := by
  induction w with
  | zero => intro n; rfl
  | succ w ih =>
    intro n
    simp [fixedDigits, ih]

/-- Claim C8: the geometry block of the built input holds exactly one line
per atom, lines 6 through 6+atoms-1 of the file, each line pairing the
atom's symbol — left-justified in a field of width 4 — with its three
coordinates taken verbatim from the request, each rendered with exactly 10
decimal digits and right-justified in a field of (minimum) width 14.  No
unit conversion is applied to the coordinates. -/
theorem claim_C8_geometry_block (input : ResultInput) (config : JobConfig)
    (h : input.molecule.geometry.length = input.molecule.symbols.length) :
    (build_input input config).infiles =
      [("dispatch.mol", String.intercalate "\n" (inputLines input config))] ∧
    (inputLines input config).drop 6 = geomBlockLines input ++ tailLines input ∧
    geomBlockLines input =
      (input.molecule.symbols.zip input.molecule.geometry).map (fun p => geomLine p.1 p.2) ∧
    (geomBlockLines input).length = input.molecule.symbols.length ∧
    ((inputLines input config).drop 6).take input.molecule.symbols.length =
      geomBlockLines input ∧
    ((inputLines input config).drop 6)[input.molecule.symbols.length]? = some "\x7d" ∧
    (∀ sym g, geomLine sym g =
      ljust sym 4 ++ " " ++ rjust (formatFixed 10 g.1) 14 ++ " " ++
        rjust (formatFixed 10 g.2.1) 14 ++ " " ++ rjust (formatFixed 10 g.2.2) 14) ∧
    (∀ s : String, ljust s 4 = s ++ String.mk (List.replicate (4 - s.length) ' ')) ∧
    (∀ s : String, rjust s 14 = String.mk (List.replicate (14 - s.length) ' ') ++ s ∧
      (rjust s 14).length = max 14 s.length) ∧
    (∀ q : ℚ, formatFixed 10 q =
      (if q < 0 then "-" else "") ++
        Nat.repr ((roundHalfEven (|q| * (10 : ℚ) ^ 10)).toNat / 10 ^ 10) ++ "." ++
        String.mk (fixedDigits 10 ((roundHalfEven (|q| * (10 : ℚ) ^ 10)).toNat % 10 ^ 10)) ∧
      (fixedDigits 10 ((roundHalfEven (|q| * (10 : ℚ) ^ 10)).toNat % 10 ^ 10)).length = 10) := by
  have hlen : (geomBlockLines input).length = input.molecule.symbols.length := by
    rw [geomBlockLines, List.length_map, List.length_zip, h, min_self]
  have hdrop : (inputLines input config).drop 6 = geomBlockLines input ++ tailLines input := rfl
  refine ⟨rfl, hdrop, rfl, hlen, ?_, ?_, fun sym g => rfl, fun s => rfl, ?_, ?_⟩
  · rw [hdrop]
    exact List.take_left' hlen
  · rw [hdrop, List.getElem?_append_right (le_of_eq hlen), hlen, Nat.sub_self]
    rfl
  · intro s
    refine ⟨rfl, ?_⟩
    simp only [rjust, String.length_append]
    have : (String.mk (List.replicate (14 - s.length) ' ')).length = 14 - s.length := by
      simp
    rw [this]
    omega
  · intro q
    exact ⟨rfl, fixedDigits_length 10 _⟩

/-- Witness for C8 on a two-atom molecule. -/
theorem claim_C8_geometry_block_witness :
    inputHF.molecule.geometry.length = inputHF.molecule.symbols.length ∧
    ((build_input inputHF sampleConfig).infiles =
        [("dispatch.mol", String.intercalate "\n" (inputLines inputHF sampleConfig))] ∧
      (inputLines inputHF sampleConfig).drop 6 = geomBlockLines inputHF ++ tailLines inputHF ∧
      geomBlockLines inputHF =
        (inputHF.molecule.symbols.zip inputHF.molecule.geometry).map (fun p => geomLine p.1 p.2) ∧
      (geomBlockLines inputHF).length = inputHF.molecule.symbols.length ∧
      ((inputLines inputHF sampleConfig).drop 6).take inputHF.molecule.symbols.length =
        geomBlockLines inputHF ∧
      ((inputLines inputHF sampleConfig).drop 6)[inputHF.molecule.symbols.length]? = some "\x7d" ∧
      (∀ sym g, geomLine sym g =
        ljust sym 4 ++ " " ++ rjust (formatFixed 10 g.1) 14 ++ " " ++
          rjust (formatFixed 10 g.2.1) 14 ++ " " ++ rjust (formatFixed 10 g.2.2) 14) ∧
      (∀ s : String, ljust s 4 = s ++ String.mk (List.replicate (4 - s.length) ' ')) ∧
      (∀ s : String, rjust s 14 = String.mk (List.replicate (14 - s.length) ' ') ++ s ∧
        (rjust s 14).length = max 14 s.length) ∧
      (∀ q : ℚ, formatFixed 10 q =
        (if q < 0 then "-" else "") ++
          Nat.repr ((roundHalfEven (|q| * (10 : ℚ) ^ 10)).toNat / 10 ^ 10) ++ "." ++
          String.mk (fixedDigits 10 ((roundHalfEven (|q| * (10 : ℚ) ^ 10)).toNat % 10 ^ 10)) ∧
        (fixedDigits 10 ((roundHalfEven (|q| * (10 : ℚ) ^ 10)).toNat % 10 ^ 10)).length = 10)) :=
  ⟨by decide, claim_C8_geometry_block inputHF sampleConfig (by decide)⟩

/-! Final-energy resolution lemmas. -/

theorem alookup_supported_cases (m : String) (maps : MethodMaps)
    (h : alookup supported_methods m = some maps) :
    (m = "HF" ∧ maps = scf_maps) ∨ (m = "RHF" ∧ maps = scf_maps) ∨
    (m = "MP2" ∧ maps = mp2_maps) ∨ (m = "CCSD" ∧ maps = ccsd_maps) := by
  simp only [supported_methods, scf_methods, post_hf_methods, List.cons_append,
    List.nil_append, alookup] at h
  split_ifs at h with h1 h2 h3 h4
  · exact Or.inl ⟨h1.symm, (Option.some.inj h).symm⟩
  · exact Or.inr (Or.inl ⟨h2.symm, (Option.some.inj h).symm⟩)
  · exact Or.inr (Or.inr (Or.inl ⟨h3.symm, (Option.some.inj h).symm⟩))
  · exact Or.inr (Or.inr (Or.inr ⟨h4.symm, (Option.some.inj h).symm⟩))

theorem resolveFinal_unsupported (mol : MoleculeTag) (m : String) (p : Props)
    (hsup : alookup supported_methods m = none) :
    resolveFinal mol m p = Except.error (ParseErr.keyError m) := by
  simp [resolveFinal, hsup]

theorem fallbackMol_mismatch (mol : MoleculeTag) (m : String)
    (emap : List (String × String)) (p : Props) (hne : mol.method ≠ m) :
    fallbackMol mol m emap p =
      Except.error (ParseErr.keyError ("Could not find " ++ m ++ " total energy")) := by
  simp [fallbackMol, hne]

theorem resolveFinal_to_fallback_posthf (mol : MoleculeTag) (m : String)
    (maps : MethodMaps) (tkey : String) (p : Props)
    (hsup : alookup supported_methods m = some maps)
    (hpost : (alookup post_hf_methods m).isSome = true)
    (ht : alookup maps.energy "total energy" = some tkey)
    (hk : alookup p tkey = none) :
    resolveFinal mol m p = fallbackMol mol m maps.energy p := by
  simp [resolveFinal, hsup, hpost, ht, hk]

theorem resolveFinal_to_fallback_scf (mol : MoleculeTag) (m : String)
    (maps : MethodMaps) (ekey : String) (p : Props)
    (hsup : alookup supported_methods m = some maps)
    (hpost : (alookup post_hf_methods m).isSome = false)
    (hscfm : (alookup scf_methods m).isSome = true)
    (he : alookup maps.energy "Energy" = some ekey)
    (hk : alookup p ekey = none) :
    resolveFinal mol m p = fallbackMol mol m maps.energy p := by
  simp [resolveFinal, hsup, hpost, hscfm, he, hk]

theorem fallbackMol_posthf_ok (mol : MoleculeTag) (m : String)
    (emap : List (String × String)) (p : Props) (tkey ckey : String) (scf : ℚ)
    (hmm : mol.method = m)
    (hpost : (alookup post_hf_methods m).isSome = true)
    (ht : alookup emap "total energy" = some tkey)
    (hck : alookup emap "correlation energy" = some ckey)
    (hscf : alookup (setKey p tkey (Val.scalar mol.energy)) "scf_total_energy" =
      some (Val.scalar scf)) :
    fallbackMol mol m emap p =
      Except.ok (mol.energy,
        setKey (setKey p tkey (Val.scalar mol.energy)) ckey
          (Val.scalar (mol.energy - scf))) := by
  simp [fallbackMol, hmm, hpost, ht, hck, getScalar, hscf]

theorem fallbackMol_scf_ok (mol : MoleculeTag) (m : String)
    (emap : List (String × String)) (p : Props) (ekey : String)
    (hmm : mol.method = m)
    (hpost : (alookup post_hf_methods m).isSome = false)
    (hscfm : (alookup scf_methods m).isSome = true)
    (he : alookup emap "Energy" = some ekey) :
    fallbackMol mol m emap p =
      Except.ok (mol.energy, setKey p ekey (Val.scalar mol.energy)) := by
  simp [fallbackMol, hmm, hpost, hscfm, he]

/-- Inversion of a successful post-HF resolution: either the dedicated
total-energy key was present (and is the final energy), or the
molecule-tag fallback fired. -/
theorem resolveFinal_posthf_inv (mol : MoleculeTag) (m : String) (maps : MethodMaps)
    (tkey ckey : String) (p : Props) (e : ℚ) (p' : Props)
    (hsup : alookup supported_methods m = some maps)
    (hpost : (alookup post_hf_methods m).isSome = true)
    (ht : alookup maps.energy "total energy" = some tkey)
    (hck : alookup maps.energy "correlation energy" = some ckey)
    (hres : resolveFinal mol m p = Except.ok (e, p')) :
    (alookup p tkey = some (Val.scalar e) ∧ p' = p) ∨
    (alookup p tkey = none ∧ mol.method = m ∧ e = mol.energy ∧
      ∃ scf, alookup (setKey p tkey (Val.scalar mol.energy)) "scf_total_energy" =
          some (Val.scalar scf) ∧
        p' = setKey (setKey p tkey (Val.scalar mol.energy)) ckey
          (Val.scalar (mol.energy - scf))) := by
  rcases hk : alookup p tkey with _ | v
  · rw [resolveFinal_to_fallback_posthf mol m maps tkey p hsup hpost ht hk] at hres
    rcases hmm : decide (mol.method = m) with _ | _
    · have hne : mol.method ≠ m := of_decide_eq_false hmm
      rw [fallbackMol_mismatch mol m maps.energy p hne] at hres
      exact absurd hres (by simp)
    · have hmeq : mol.method = m := of_decide_eq_true hmm
      refine Or.inr ⟨rfl, hmeq, ?_⟩
      rcases hscf : alookup (setKey p tkey (Val.scalar mol.energy)) "scf_total_energy"
        with _ | v2
      · simp [fallbackMol, hmeq, hpost, ht, hck, getScalar, hscf] at hres
      · cases v2 with
        | scalar scf =>
          rw [fallbackMol_posthf_ok mol m maps.energy p tkey ckey scf hmeq hpost ht hck hscf]
            at hres
          obtain ⟨he, hp⟩ := Prod.mk.inj (Except.ok.inj hres)
          exact ⟨he.symm, scf, rfl, hp.symm⟩
        | vector xs =>
          simp [fallbackMol, hmeq, hpost, ht, hck, getScalar, hscf] at hres
  · cases v with
    | scalar x =>
      have : resolveFinal mol m p = Except.ok (x, p) := by
        simp [resolveFinal, hsup, hpost, ht, hk, asScalar]
      rw [this] at hres
      obtain ⟨he, hp⟩ := Prod.mk.inj (Except.ok.inj hres)
      exact Or.inl ⟨by rw [he], hp.symm⟩
    | vector xs =>
      have : resolveFinal mol m p = Except.error (ParseErr.valueError tkey) := by
        simp [resolveFinal, hsup, hpost, ht, hk, asScalar]
      rw [this] at hres
      exact absurd hres (by simp)

/-- Inversion of a successful SCF-family resolution. -/
theorem resolveFinal_scf_inv (mol : MoleculeTag) (m : String) (maps : MethodMaps)
    (ekey : String) (p : Props) (e : ℚ) (p' : Props)
    (hsup : alookup supported_methods m = some maps)
    (hpost : (alookup post_hf_methods m).isSome = false)
    (hscfm : (alookup scf_methods m).isSome = true)
    (he : alookup maps.energy "Energy" = some ekey)
    (hres : resolveFinal mol m p = Except.ok (e, p')) :
    (alookup p ekey = some (Val.scalar e) ∧ p' = p) ∨
    (alookup p ekey = none ∧ mol.method = m ∧ e = mol.energy ∧
      p' = setKey p ekey (Val.scalar mol.energy)) := by
  rcases hk : alookup p ekey with _ | v
  · rw [resolveFinal_to_fallback_scf mol m maps ekey p hsup hpost hscfm he hk] at hres
    rcases hmm : decide (mol.method = m) with _ | _
    · have hne : mol.method ≠ m := of_decide_eq_false hmm
      rw [fallbackMol_mismatch mol m maps.energy p hne] at hres
      exact absurd hres (by simp)
    · have hmeq : mol.method = m := of_decide_eq_true hmm
      rw [fallbackMol_scf_ok mol m maps.energy p ekey hmeq hpost hscfm he] at hres
      obtain ⟨he2, hp⟩ := Prod.mk.inj (Except.ok.inj hres)
      exact Or.inr ⟨rfl, hmeq, he2.symm, hp.symm⟩
  · cases v with
    | scalar x =>
      have : resolveFinal mol m p = Except.ok (x, p) := by
        simp [resolveFinal, hsup, hpost, hscfm, he, hk, asScalar]
      rw [this] at hres
      obtain ⟨he2, hp⟩ := Prod.mk.inj (Except.ok.inj hres)
      exact Or.inl ⟨by rw [he2], hp.symm⟩
    | vector xs =>
      have : resolveFinal mol m p = Except.error (ParseErr.valueError ekey) := by
        simp [resolveFinal, hsup, hpost, hscfm, he, hk, asScalar]
      rw [this] at hres
      exact absurd hres (by simp)

/-- A successful resolution only ever writes the total/correlation/SCF
energy keys; every other key keeps its pre-resolution binding. -/
theorem resolveFinal_preserves (mol : MoleculeTag) (m : String) (p : Props) (e : ℚ)
    (p' : Props) (k : String)
    (hres : resolveFinal mol m p = Except.ok (e, p'))
    (h1 : k ≠ "mp2_total_energy") (h2 : k ≠ "mp2_correlation_energy")
    (h3 : k ≠ "ccsd_total_energy") (h4 : k ≠ "ccsd_correlation_energy")
    (h5 : k ≠ "scf_total_energy") :
    alookup p' k = alookup p k := by
  rcases hsup : alookup supported_methods m with _ | maps
  · rw [resolveFinal_unsupported mol m p hsup] at hres
    exact absurd hres (by simp)
  · rcases alookup_supported_cases m maps hsup
      with ⟨hm, hmap⟩ | ⟨hm, hmap⟩ | ⟨hm, hmap⟩ | ⟨hm, hmap⟩ <;> subst hm <;> subst hmap
    · rcases resolveFinal_scf_inv mol "HF" scf_maps "scf_total_energy" p e p'
        hsup (by decide) (by decide) (by decide) hres with ⟨_, hp⟩ | ⟨_, _, _, hp⟩
      · rw [hp]
      · rw [hp, alookup_setKey_ne _ _ h5]
    · rcases resolveFinal_scf_inv mol "RHF" scf_maps "scf_total_energy" p e p'
        hsup (by decide) (by decide) (by decide) hres with ⟨_, hp⟩ | ⟨_, _, _, hp⟩
      · rw [hp]
      · rw [hp, alookup_setKey_ne _ _ h5]
    · rcases resolveFinal_posthf_inv mol "MP2" mp2_maps "mp2_total_energy"
        "mp2_correlation_energy" p e p' hsup (by decide) (by decide) (by decide) hres
        with ⟨_, hp⟩ | ⟨_, _, _, scf, _, hp⟩
      · rw [hp]
      · rw [hp, alookup_setKey_ne _ _ h2, alookup_setKey_ne _ _ h1]
    · rcases resolveFinal_posthf_inv mol "CCSD" ccsd_maps "ccsd_total_energy"
        "ccsd_correlation_energy" p e p' hsup (by decide) (by decide) (by decide) hres
        with ⟨_, hp⟩ | ⟨_, _, _, scf, _, hp⟩
      · rw [hp]
      · rw [hp, alookup_setKey_ne _ _ h4, alookup_setKey_ne _ _ h3]

/-- After a successful resolution the requested method's canonical energy
key holds exactly the final energy. -/
theorem resolveFinal_canonical (mol : MoleculeTag) (m : String) (p : Props) (e : ℚ)
    (p' : Props) (hres : resolveFinal mol m p = Except.ok (e, p')) :
    (alookup supported_methods m).isSome = true ∧
    alookup p' (canonicalKeyD m) = some (Val.scalar e) := by
  rcases hsup : alookup supported_methods m with _ | maps
  · rw [resolveFinal_unsupported mol m p hsup] at hres
    exact absurd hres (by simp)
  · refine ⟨rfl, ?_⟩
    rcases alookup_supported_cases m maps hsup
      with ⟨hm, hmap⟩ | ⟨hm, hmap⟩ | ⟨hm, hmap⟩ | ⟨hm, hmap⟩ <;> subst hm <;> subst hmap
    · rcases resolveFinal_scf_inv mol "HF" scf_maps "scf_total_energy" p e p'
        hsup (by decide) (by decide) (by decide) hres with ⟨hk, hp⟩ | ⟨_, _, he, hp⟩
      · rw [hp]
        exact hk
      · rw [hp, he]
        exact alookup_setKey_self _ _ _
    · rcases resolveFinal_scf_inv mol "RHF" scf_maps "scf_total_energy" p e p'
        hsup (by decide) (by decide) (by decide) hres with ⟨hk, hp⟩ | ⟨_, _, he, hp⟩
      · rw [hp]
        exact hk
      · rw [hp, he]
        exact alookup_setKey_self _ _ _
    · rcases resolveFinal_posthf_inv mol "MP2" mp2_maps "mp2_total_energy"
        "mp2_correlation_energy" p e p' hsup (by decide) (by decide) (by decide) hres
        with ⟨hk, hp⟩ | ⟨_, _, he, scf, _, hp⟩
      · rw [hp]
        exact hk
      · rw [hp, he, show canonicalKeyD "MP2" = "mp2_total_energy" from rfl]
        rw [alookup_setKey_ne _ _ (by decide : ("mp2_total_energy" : String) ≠ "mp2_correlation_energy")]
        exact alookup_setKey_self _ _ _
    · rcases resolveFinal_posthf_inv mol "CCSD" ccsd_maps "ccsd_total_energy"
        "ccsd_correlation_energy" p e p' hsup (by decide) (by decide) (by decide) hres
        with ⟨hk, hp⟩ | ⟨_, _, he, scf, _, hp⟩
      · rw [hp]
        exact hk
      · rw [hp, he, show canonicalKeyD "CCSD" = "ccsd_total_energy" from rfl]
        rw [alookup_setKey_ne _ _ (by decide : ("ccsd_total_energy" : String) ≠ "ccsd_correlation_energy")]
        exact alookup_setKey_self _ _ _

/-! Evaluation of `parse_output` in terms of its stages. -/

theorem parse_output_of_resolve_ok (report : Report) (input : ResultInput)
    (p0 : Props) (grad : Option (List ℚ)) (e : ℚ) (p' : Props)
    (hc : collectSteps report = Except.ok (p0, grad))
    (hres : resolveFinal report.molecule input.model.method (spinDecompose p0) =
      Except.ok (e, p')) :
    parse_output report input =
      Except.ok
        { molecule := input.molecule
          model := input.model
          driver := input.driver
          return_result :=
            match grad with
            | some g => Val.vector g
            | none => Val.scalar e
          properties := p'
          success := true } := by
  simp [parse_output, hc, hres]
  cases grad <;> rfl

theorem parse_output_of_resolve_error (report : Report) (input : ResultInput)
    (p0 : Props) (grad : Option (List ℚ)) (err : ParseErr)
    (hc : collectSteps report = Except.ok (p0, grad))
    (hres : resolveFinal report.molecule input.model.method (spinDecompose p0) =
      Except.error err) :
    parse_output report input = Except.error err := by
  simp [parse_output, hc, hres]

/-- Claim C4: when no gradient was captured and the final energy resolves,
the parse succeeds with `return_result` a single float equal to the
resolved final energy, and that same value sits in the properties mapping
under the requested method's canonical energy key. -/
theorem claim_C4_energy_return_result (report : Report) (input : ResultInput)
    (p0 : Props) (e : ℚ) (p' : Props)
    (hc : collectSteps report = Except.ok (p0, none))
    (hres : resolveFinal report.molecule input.model.method (spinDecompose p0) =
      Except.ok (e, p')) :
    parse_output report input =
      Except.ok
        { molecule := input.molecule
          model := input.model
          driver := input.driver
          return_result := Val.scalar e
          properties := p'
          success := true } ∧
    (alookup supported_methods input.model.method).isSome = true ∧
    alookup p' (canonicalKeyD input.model.method) = some (Val.scalar e) := by
  refine ⟨parse_output_of_resolve_ok report input p0 none e p' hc hres,
    (resolveFinal_canonical _ _ _ _ _ hres).1,
    (resolveFinal_canonical _ _ _ _ _ hres).2⟩

/-- Witness for C4: the spec's own example — an `HF` request against a
report whose single jobstep carries `Energy = -1.234567`. -/
theorem claim_C4_energy_return_result_witness :
    collectSteps reportHF =
      Except.ok ([("scf_total_energy", Val.scalar (-1234567 / 1000000))], none) ∧
    resolveFinal reportHF.molecule inputHF.model.method
        (spinDecompose [("scf_total_energy", Val.scalar (-1234567 / 1000000))]) =
      Except.ok (-1234567 / 1000000,
        [("scf_total_energy", Val.scalar (-1234567 / 1000000))]) ∧
    (parse_output reportHF inputHF =
      Except.ok
        { molecule := inputHF.molecule
          model := inputHF.model
          driver := inputHF.driver
          return_result := Val.scalar (-1234567 / 1000000)
          properties := [("scf_total_energy", Val.scalar (-1234567 / 1000000))]
          success := true } ∧
    (alookup supported_methods inputHF.model.method).isSome = true ∧
    alookup [("scf_total_energy", Val.scalar (-1234567 / 1000000))]
        (canonicalKeyD inputHF.model.method) =
      some (Val.scalar (-1234567 / 1000000))) :=
  ⟨rfl, rfl,
    claim_C4_energy_return_result reportHF inputHF
      [("scf_total_energy", Val.scalar (-1234567 / 1000000))]
      (-1234567 / 1000000)
      [("scf_total_energy", Val.scalar (-1234567 / 1000000))]
      rfl rfl⟩

/-- Claim C10: a requested method outside the four case-sensitive keys
`HF`, `RHF`, `MP2`, `CCSD` makes `parse_output` fail with `KeyError` at the
method-map lookup, carrying the method itself — whatever the report's
molecule tag says, so before the final-energy fallback chain can run — even
though `build_input` accepts spellings such as `ccsd(t)` as post-HF methods
and emits the HF reference step for them. -/
theorem claim_C10_unsupported_method (report : Report) (input : ResultInput)
    (config : JobConfig) (st : Props × Option (List ℚ))
    (hns : alookup supported_methods input.model.method = none)
    (hc : collectSteps report = Except.ok st) :
    parse_output report input = Except.error (ParseErr.keyError input.model.method) ∧
    (pyLower input.model.method ∈ posthf_methods →
      "\x7bHF\x7d" ∈ inputLines input config) := by
  obtain ⟨p0, grad⟩ := st
  refine ⟨?_, ?_⟩
  · exact parse_output_of_resolve_error report input p0 grad _ hc
      (resolveFinal_unsupported report.molecule input.model.method (spinDecompose p0) hns)
  · intro hl
    simp [inputLines, headLines, tailLines, hl]

/-- Witness for C10: the method `ccsd(t)` — accepted by `build_input` as a
post-HF method — is rejected by `parse_output` with `KeyError('ccsd(t)')`
although the molecule tag records method `ccsd(t)` with an energy. -/
theorem claim_C10_unsupported_method_witness :
    alookup supported_methods inputCCSDpT.model.method = none ∧
    collectSteps reportCCSDpT = Except.ok ([("scf_total_energy", Val.scalar (-76))], none) ∧
    (parse_output reportCCSDpT inputCCSDpT =
      Except.error (ParseErr.keyError inputCCSDpT.model.method) ∧
    ("\x7bHF\x7d" ∈ inputLines inputCCSDpT sampleConfig)) :=
  ⟨by decide, rfl,
    (claim_C10_unsupported_method reportCCSDpT inputCCSDpT sampleConfig
        ([("scf_total_energy", Val.scalar (-76))], none) (by decide) rfl).1,
    (claim_C10_unsupported_method reportCCSDpT inputCCSDpT sampleConfig
        ([("scf_total_energy", Val.scalar (-76))], none) (by decide) rfl).2
      (by decide)⟩

/-- Claim C2: when both pair energies of a family (MP2 or CCSD) were
captured as S and T, the final properties mapping holds the family's
same-spin correlation energy, exactly (2/3)T, and opposite-spin correlation
energy, exactly (1/3)T + S, and the singlet/triplet pair keys are gone. -/
theorem claim_C2_spin_decomposition (report : Report) (input : ResultInput) (fam : String)
    (p0 : Props) (grad : Option (List ℚ)) (S T : ℚ) (r : ResultRecord)
    (hfam : fam = "mp2" ∨ fam = "ccsd")
    (hc : collectSteps report = Except.ok (p0, grad))
    (hS : alookup p0 (fam ++ "_singlet_pair_energy") = some (Val.scalar S))
    (hT : alookup p0 (fam ++ "_triplet_pair_energy") = some (Val.scalar T))
    (hp : parse_output report input = Except.ok r) :
    alookup r.properties (fam ++ "_same_spin_correlation_energy") =
      some (Val.scalar (2 / 3 * T)) ∧
    alookup r.properties (fam ++ "_opposite_spin_correlation_energy") =
      some (Val.scalar (1 / 3 * T + S)) ∧
    alookup r.properties (fam ++ "_singlet_pair_energy") = none ∧
    alookup r.properties (fam ++ "_triplet_pair_energy") = none := by
  rcases hres : resolveFinal report.molecule input.model.method (spinDecompose p0)
    with err | pr
  · rw [parse_output_of_resolve_error report input p0 grad err hc hres] at hp
    exact absurd hp (by simp)
  · obtain ⟨e, p'⟩ := pr
    rw [parse_output_of_resolve_ok report input p0 grad e p' hc hres] at hp
    have hr : r.properties = p' := by rw [← Except.ok.inj hp]
    have pres : ∀ k : String, k ≠ "mp2_total_energy" → k ≠ "mp2_correlation_energy" →
        k ≠ "ccsd_total_energy" → k ≠ "ccsd_correlation_energy" → k ≠ "scf_total_energy" →
        alookup p' k = alookup (spinDecompose p0) k := fun k a b c d f =>
      resolveFinal_preserves report.molecule input.model.method (spinDecompose p0) e p' k
        hres a b c d f
    rcases hfam with hf | hf <;> subst hf
    · have hS' : alookup p0 "mp2_singlet_pair_energy" = some (Val.scalar S) := hS
      have hT' : alookup p0 "mp2_triplet_pair_energy" = some (Val.scalar T) := hT
      have hfire := spinFam_fire "mp2_singlet_pair_energy" "mp2_triplet_pair_energy"
        "mp2_same_spin_correlation_energy" "mp2_opposite_spin_correlation_energy" p0 S T
        hS' hT' (by decide) (by decide) (by decide) (by decide) (by decide) (by decide)
      have hq : ∀ k : String, k ≠ "ccsd_same_spin_correlation_energy" →
          k ≠ "ccsd_opposite_spin_correlation_energy" → k ≠ "ccsd_singlet_pair_energy" →
          k ≠ "ccsd_triplet_pair_energy" →
          alookup (spinDecompose p0) k =
            alookup (spinFam "mp2_singlet_pair_energy" "mp2_triplet_pair_energy"
              "mp2_same_spin_correlation_energy" "mp2_opposite_spin_correlation_energy" p0) k :=
        fun k k1 k2 k3 k4 => spinFam_lookup_ne "ccsd_singlet_pair_energy"
          "ccsd_triplet_pair_energy" "ccsd_same_spin_correlation_energy"
          "ccsd_opposite_spin_correlation_energy" k _ k1 k2 k3 k4
      refine ⟨?_, ?_, ?_, ?_⟩
      · rw [hr, show ("mp2" : String) ++ "_same_spin_correlation_energy" =
            "mp2_same_spin_correlation_energy" from rfl,
          pres _ (by decide) (by decide) (by decide) (by decide) (by decide),
          hq _ (by decide) (by decide) (by decide) (by decide)]
        exact hfire.1
      · rw [hr, show ("mp2" : String) ++ "_opposite_spin_correlation_energy" =
            "mp2_opposite_spin_correlation_energy" from rfl,
          pres _ (by decide) (by decide) (by decide) (by decide) (by decide),
          hq _ (by decide) (by decide) (by decide) (by decide)]
        exact hfire.2.1
      · rw [hr, show ("mp2" : String) ++ "_singlet_pair_energy" =
            "mp2_singlet_pair_energy" from rfl,
          pres _ (by decide) (by decide) (by decide) (by decide) (by decide),
          hq _ (by decide) (by decide) (by decide) (by decide)]
        exact hfire.2.2.1
      · rw [hr, show ("mp2" : String) ++ "_triplet_pair_energy" =
            "mp2_triplet_pair_energy" from rfl,
          pres _ (by decide) (by decide) (by decide) (by decide) (by decide),
          hq _ (by decide) (by decide) (by decide) (by decide)]
        exact hfire.2.2.2
    · have hS' : alookup (spinFam "mp2_singlet_pair_energy" "mp2_triplet_pair_energy"
          "mp2_same_spin_correlation_energy" "mp2_opposite_spin_correlation_energy" p0)
          "ccsd_singlet_pair_energy" = some (Val.scalar S) := by
        rw [spinFam_lookup_ne "mp2_singlet_pair_energy" "mp2_triplet_pair_energy"
          "mp2_same_spin_correlation_energy" "mp2_opposite_spin_correlation_energy"
          "ccsd_singlet_pair_energy" p0 (by decide) (by decide) (by decide) (by decide)]
        exact hS
      have hT' : alookup (spinFam "mp2_singlet_pair_energy" "mp2_triplet_pair_energy"
          "mp2_same_spin_correlation_energy" "mp2_opposite_spin_correlation_energy" p0)
          "ccsd_triplet_pair_energy" = some (Val.scalar T) := by
        rw [spinFam_lookup_ne "mp2_singlet_pair_energy" "mp2_triplet_pair_energy"
          "mp2_same_spin_correlation_energy" "mp2_opposite_spin_correlation_energy"
          "ccsd_triplet_pair_energy" p0 (by decide) (by decide) (by decide) (by decide)]
        exact hT
      have hfire := spinFam_fire "ccsd_singlet_pair_energy" "ccsd_triplet_pair_energy"
        "ccsd_same_spin_correlation_energy" "ccsd_opposite_spin_correlation_energy"
        (spinFam "mp2_singlet_pair_energy" "mp2_triplet_pair_energy"
          "mp2_same_spin_correlation_energy" "mp2_opposite_spin_correlation_energy" p0) S T
        hS' hT' (by decide) (by decide) (by decide) (by decide) (by decide) (by decide)
      refine ⟨?_, ?_, ?_, ?_⟩
      · rw [hr, show ("ccsd" : String) ++ "_same_spin_correlation_energy" =
            "ccsd_same_spin_correlation_energy" from rfl,
          pres _ (by decide) (by decide) (by decide) (by decide) (by decide)]
        exact hfire.1
      · rw [hr, show ("ccsd" : String) ++ "_opposite_spin_correlation_energy" =
            "ccsd_opposite_spin_correlation_energy" from rfl,
          pres _ (by decide) (by decide) (by decide) (by decide) (by decide)]
        exact hfire.2.1
      · rw [hr, show ("ccsd" : String) ++ "_singlet_pair_energy" =
            "ccsd_singlet_pair_energy" from rfl,
          pres _ (by decide) (by decide) (by decide) (by decide) (by decide)]
        exact hfire.2.2.1
      · rw [hr, show ("ccsd" : String) ++ "_triplet_pair_energy" =
            "ccsd_triplet_pair_energy" from rfl,
          pres _ (by decide) (by decide) (by decide) (by decide) (by decide)]
        exact hfire.2.2.2

/-- Witness for C2: an MP2 report with singlet pair energy -1 and triplet
pair energy -2 parses to same-spin (2/3)(-2), opposite-spin (1/3)(-2)+(-1),
with both pair keys removed. -/
theorem claim_C2_spin_decomposition_witness :
    ("mp2" = "mp2" ∨ "mp2" = "ccsd") ∧
    collectSteps reportMP2pairs = Except.ok (mp2PairsProps, none) ∧
    alookup mp2PairsProps ("mp2" ++ "_singlet_pair_energy") = some (Val.scalar (-1)) ∧
    alookup mp2PairsProps ("mp2" ++ "_triplet_pair_energy") = some (Val.scalar (-2)) ∧
    parse_output reportMP2pairs inputMP2 = Except.ok mp2PairsResult ∧
    (alookup mp2PairsResult.properties ("mp2" ++ "_same_spin_correlation_energy") =
      some (Val.scalar (2 / 3 * (-2))) ∧
    alookup mp2PairsResult.properties ("mp2" ++ "_opposite_spin_correlation_energy") =
      some (Val.scalar (1 / 3 * (-2) + (-1))) ∧
    alookup mp2PairsResult.properties ("mp2" ++ "_singlet_pair_energy") = none ∧
    alookup mp2PairsResult.properties ("mp2" ++ "_triplet_pair_energy") = none) :=
  ⟨Or.inl rfl, rfl, rfl, rfl, rfl,
    claim_C2_spin_decomposition reportMP2pairs inputMP2 "mp2" mp2PairsProps none
      (-1) (-2) mp2PairsResult (Or.inl rfl) rfl rfl rfl rfl⟩

/-- Claim C1: when the requested method's dedicated energy key was never
captured from a job step but the molecule element records exactly the
requested method, the parse succeeds, the molecule element's energy is the
final energy (hence `return_result`, no gradient having been captured), it
is backfilled under the method's canonical total/SCF energy key, and for
post-HF methods the correlation energy `molecule_energy - scf_total_energy`
is stored under the method's correlation-energy key. -/
theorem claim_C1_molecule_fallback (report : Report) (input : ResultInput)
    (p0 : Props) (scf : ℚ)
    (hm : input.model.method ∈ (["HF", "RHF", "MP2", "CCSD"] : List String))
    (hc : collectSteps report = Except.ok (p0, none))
    (hk : alookup p0 (canonicalKeyD input.model.method) = none)
    (hmol : report.molecule.method = input.model.method)
    (hscf : (alookup post_hf_methods input.model.method).isSome = true →
      alookup p0 "scf_total_energy" = some (Val.scalar scf)) :
    parsedReturn (parse_output report input) = some (Val.scalar report.molecule.energy) ∧
    parsedProp (parse_output report input) (canonicalKeyD input.model.method) =
      some (some (Val.scalar report.molecule.energy)) ∧
    ((alookup post_hf_methods input.model.method).isSome = true →
      parsedProp (parse_output report input) (corrKeyD input.model.method) =
        some (some (Val.scalar (report.molecule.energy - scf)))) := by
  have hm4 : input.model.method = "HF" ∨ input.model.method = "RHF" ∨
      input.model.method = "MP2" ∨ input.model.method = "CCSD" := by
    simpa using hm
  have hdecomp : ∀ k : String,
      k ≠ "mp2_same_spin_correlation_energy" → k ≠ "mp2_opposite_spin_correlation_energy" →
      k ≠ "mp2_singlet_pair_energy" → k ≠ "mp2_triplet_pair_energy" →
      k ≠ "ccsd_same_spin_correlation_energy" → k ≠ "ccsd_opposite_spin_correlation_energy" →
      k ≠ "ccsd_singlet_pair_energy" → k ≠ "ccsd_triplet_pair_energy" →
      alookup (spinDecompose p0) k = alookup p0 k := by
    intro k m1 m2 m3 m4 c1 c2 c3 c4
    rw [show spinDecompose p0 = spinFam "ccsd_singlet_pair_energy" "ccsd_triplet_pair_energy"
        "ccsd_same_spin_correlation_energy" "ccsd_opposite_spin_correlation_energy"
        (spinFam "mp2_singlet_pair_energy" "mp2_triplet_pair_energy"
          "mp2_same_spin_correlation_energy" "mp2_opposite_spin_correlation_energy" p0)
      from rfl,
      spinFam_lookup_ne "ccsd_singlet_pair_energy" "ccsd_triplet_pair_energy"
        "ccsd_same_spin_correlation_energy" "ccsd_opposite_spin_correlation_energy" k _
        c1 c2 c3 c4,
      spinFam_lookup_ne "mp2_singlet_pair_energy" "mp2_triplet_pair_energy"
        "mp2_same_spin_correlation_energy" "mp2_opposite_spin_correlation_energy" k _
        m1 m2 m3 m4]
  rcases hm4 with hmethod | hmethod | hmethod | hmethod
  · -- HF
    have hk2 : alookup (spinDecompose p0) "scf_total_energy" = none := by
      rw [hdecomp _ (by decide) (by decide) (by decide) (by decide) (by decide) (by decide)
        (by decide) (by decide)]
      rw [hmethod] at hk
      exact hk
    have hres : resolveFinal report.molecule input.model.method (spinDecompose p0) =
        Except.ok (report.molecule.energy,
          setKey (spinDecompose p0) "scf_total_energy" (Val.scalar report.molecule.energy)) := by
      rw [hmethod]
      rw [resolveFinal_to_fallback_scf report.molecule "HF" scf_maps "scf_total_energy"
        (spinDecompose p0) (by decide) (by decide) (by decide) (by decide) hk2]
      exact fallbackMol_scf_ok report.molecule "HF" scf_maps.energy (spinDecompose p0)
        "scf_total_energy" (by rw [hmol]; exact hmethod) (by decide) (by decide) (by decide)
    have hpo := parse_output_of_resolve_ok report input p0 none report.molecule.energy _ hc hres
    refine ⟨?_, ?_, ?_⟩
    · rw [hpo]
      rfl
    · rw [hpo]
      simp only [parsedProp, Option.some.injEq]
      rw [hmethod, show canonicalKeyD "HF" = "scf_total_energy" from rfl,
        alookup_setKey_self]
    · intro hpost2
      rw [hmethod] at hpost2
      exact absurd hpost2 (by decide)
  · -- RHF
    have hk2 : alookup (spinDecompose p0) "scf_total_energy" = none := by
      rw [hdecomp _ (by decide) (by decide) (by decide) (by decide) (by decide) (by decide)
        (by decide) (by decide)]
      rw [hmethod] at hk
      exact hk
    have hres : resolveFinal report.molecule input.model.method (spinDecompose p0) =
        Except.ok (report.molecule.energy,
          setKey (spinDecompose p0) "scf_total_energy" (Val.scalar report.molecule.energy)) := by
      rw [hmethod]
      rw [resolveFinal_to_fallback_scf report.molecule "RHF" scf_maps "scf_total_energy"
        (spinDecompose p0) (by decide) (by decide) (by decide) (by decide) hk2]
      exact fallbackMol_scf_ok report.molecule "RHF" scf_maps.energy (spinDecompose p0)
        "scf_total_energy" (by rw [hmol]; exact hmethod) (by decide) (by decide) (by decide)
    have hpo := parse_output_of_resolve_ok report input p0 none report.molecule.energy _ hc hres
    refine ⟨?_, ?_, ?_⟩
    · rw [hpo]
      rfl
    · rw [hpo]
      simp only [parsedProp, Option.some.injEq]
      rw [hmethod, show canonicalKeyD "RHF" = "scf_total_energy" from rfl,
        alookup_setKey_self]
    · intro hpost2
      rw [hmethod] at hpost2
      exact absurd hpost2 (by decide)
  · -- MP2
    have hpost : (alookup post_hf_methods "MP2").isSome = true := by decide
    have hk2 : alookup (spinDecompose p0) "mp2_total_energy" = none := by
      rw [hdecomp _ (by decide) (by decide) (by decide) (by decide) (by decide) (by decide)
        (by decide) (by decide)]
      rw [hmethod] at hk
      exact hk
    have hscf0 : alookup p0 "scf_total_energy" = some (Val.scalar scf) :=
      hscf (by rw [hmethod]; exact hpost)
    have hscf2 : alookup (setKey (spinDecompose p0) "mp2_total_energy"
        (Val.scalar report.molecule.energy)) "scf_total_energy" = some (Val.scalar scf) := by
      rw [alookup_setKey_ne _ _ (by decide),
        hdecomp _ (by decide) (by decide) (by decide) (by decide) (by decide) (by decide)
          (by decide) (by decide)]
      exact hscf0
    have hres : resolveFinal report.molecule input.model.method (spinDecompose p0) =
        Except.ok (report.molecule.energy,
          setKey (setKey (spinDecompose p0) "mp2_total_energy"
              (Val.scalar report.molecule.energy)) "mp2_correlation_energy"
            (Val.scalar (report.molecule.energy - scf))) := by
      rw [hmethod]
      rw [resolveFinal_to_fallback_posthf report.molecule "MP2" mp2_maps "mp2_total_energy"
        (spinDecompose p0) (by decide) hpost (by decide) hk2]
      exact fallbackMol_posthf_ok report.molecule "MP2" mp2_maps.energy (spinDecompose p0)
        "mp2_total_energy" "mp2_correlation_energy" scf (by rw [hmol]; exact hmethod) hpost
        (by decide) (by decide) hscf2
    have hpo := parse_output_of_resolve_ok report input p0 none report.molecule.energy _ hc hres
    refine ⟨?_, ?_, ?_⟩
    · rw [hpo]
      rfl
    · rw [hpo]
      simp only [parsedProp, Option.some.injEq]
      rw [hmethod, show canonicalKeyD "MP2" = "mp2_total_energy" from rfl,
        alookup_setKey_ne _ _ (by decide), alookup_setKey_self]
    · intro hpost2
      rw [hpo]
      simp only [parsedProp, Option.some.injEq]
      rw [hmethod, show corrKeyD "MP2" = "mp2_correlation_energy" from rfl,
        alookup_setKey_self]
  · -- CCSD
    have hpost : (alookup post_hf_methods "CCSD").isSome = true := by decide
    have hk2 : alookup (spinDecompose p0) "ccsd_total_energy" = none := by
      rw [hdecomp _ (by decide) (by decide) (by decide) (by decide) (by decide) (by decide)
        (by decide) (by decide)]
      rw [hmethod] at hk
      exact hk
    have hscf0 : alookup p0 "scf_total_energy" = some (Val.scalar scf) :=
      hscf (by rw [hmethod]; exact hpost)
    have hscf2 : alookup (setKey (spinDecompose p0) "ccsd_total_energy"
        (Val.scalar report.molecule.energy)) "scf_total_energy" = some (Val.scalar scf) := by
      rw [alookup_setKey_ne _ _ (by decide),
        hdecomp _ (by decide) (by decide) (by decide) (by decide) (by decide) (by decide)
          (by decide) (by decide)]
      exact hscf0
    have hres : resolveFinal report.molecule input.model.method (spinDecompose p0) =
        Except.ok (report.molecule.energy,
          setKey (setKey (spinDecompose p0) "ccsd_total_energy"
              (Val.scalar report.molecule.energy)) "ccsd_correlation_energy"
            (Val.scalar (report.molecule.energy - scf))) := by
      rw [hmethod]
      rw [resolveFinal_to_fallback_posthf report.molecule "CCSD" ccsd_maps "ccsd_total_energy"
        (spinDecompose p0) (by decide) hpost (by decide) hk2]
      exact fallbackMol_posthf_ok report.molecule "CCSD" ccsd_maps.energy (spinDecompose p0)
        "ccsd_total_energy" "ccsd_correlation_energy" scf (by rw [hmol]; exact hmethod) hpost
        (by decide) (by decide) hscf2
    have hpo := parse_output_of_resolve_ok report input p0 none report.molecule.energy _ hc hres
    refine ⟨?_, ?_, ?_⟩
    · rw [hpo]
      rfl
    · rw [hpo]
      simp only [parsedProp, Option.some.injEq]
      rw [hmethod, show canonicalKeyD "CCSD" = "ccsd_total_energy" from rfl,
        alookup_setKey_ne _ _ (by decide), alookup_setKey_self]
    · intro hpost2
      rw [hpo]
      simp only [parsedProp, Option.some.injEq]
      rw [hmethod, show corrKeyD "CCSD" = "ccsd_correlation_energy" from rfl,
        alookup_setKey_self]

/-- Witness for C1: an MP2 request whose report captured only
`scf_total_energy = -76` while the molecule tag records method MP2 with
energy -77: the parse returns -77, backfills `mp2_total_energy = -77` and
stores `mp2_correlation_energy = -77 - (-76)`. -/
theorem claim_C1_molecule_fallback_witness :
    inputMP2.model.method ∈ (["HF", "RHF", "MP2", "CCSD"] : List String) ∧
    collectSteps reportMP2fallback =
      Except.ok ([("scf_total_energy", Val.scalar (-76))], none) ∧
    alookup [("scf_total_energy", Val.scalar (-76))] (canonicalKeyD inputMP2.model.method) =
      none ∧
    reportMP2fallback.molecule.method = inputMP2.model.method ∧
    (parsedReturn (parse_output reportMP2fallback inputMP2) =
      some (Val.scalar reportMP2fallback.molecule.energy) ∧
    parsedProp (parse_output reportMP2fallback inputMP2) (canonicalKeyD inputMP2.model.method) =
      some (some (Val.scalar reportMP2fallback.molecule.energy)) ∧
    ((alookup post_hf_methods inputMP2.model.method).isSome = true →
      parsedProp (parse_output reportMP2fallback inputMP2) (corrKeyD inputMP2.model.method) =
        some (some (Val.scalar (reportMP2fallback.molecule.energy - (-76)))))) :=
  ⟨by decide, rfl, by decide, rfl,
    claim_C1_molecule_fallback reportMP2fallback inputMP2
      [("scf_total_energy", Val.scalar (-76))] (-76)
      (by decide) rfl (by decide) rfl (fun _ => rfl)⟩

/-- Claim C3: when the requested method's dedicated energy key was never
captured and the molecule element records a different method, the parse
fails with a `KeyError` whose message names the unresolved method, and no
result record is produced. -/
theorem claim_C3_mismatch_keyerror (report : Report) (input : ResultInput)
    (p0 : Props) (grad : Option (List ℚ))
    (hm : input.model.method ∈ (["HF", "RHF", "MP2", "CCSD"] : List String))
    (hc : collectSteps report = Except.ok (p0, grad))
    (hk : alookup p0 (canonicalKeyD input.model.method) = none)
    (hmol : report.molecule.method ≠ input.model.method) :
    parse_output report input =
      Except.error (ParseErr.keyError
        ("Could not find " ++ input.model.method ++ " total energy")) := by
  have hm4 : input.model.method = "HF" ∨ input.model.method = "RHF" ∨
      input.model.method = "MP2" ∨ input.model.method = "CCSD" := by
    simpa using hm
  have hdecomp : ∀ k : String,
      k ≠ "mp2_same_spin_correlation_energy" → k ≠ "mp2_opposite_spin_correlation_energy" →
      k ≠ "mp2_singlet_pair_energy" → k ≠ "mp2_triplet_pair_energy" →
      k ≠ "ccsd_same_spin_correlation_energy" → k ≠ "ccsd_opposite_spin_correlation_energy" →
      k ≠ "ccsd_singlet_pair_energy" → k ≠ "ccsd_triplet_pair_energy" →
      alookup (spinDecompose p0) k = alookup p0 k := by
    intro k m1 m2 m3 m4 c1 c2 c3 c4
    rw [show spinDecompose p0 = spinFam "ccsd_singlet_pair_energy" "ccsd_triplet_pair_energy"
        "ccsd_same_spin_correlation_energy" "ccsd_opposite_spin_correlation_energy"
        (spinFam "mp2_singlet_pair_energy" "mp2_triplet_pair_energy"
          "mp2_same_spin_correlation_energy" "mp2_opposite_spin_correlation_energy" p0)
      from rfl,
      spinFam_lookup_ne "ccsd_singlet_pair_energy" "ccsd_triplet_pair_energy"
        "ccsd_same_spin_correlation_energy" "ccsd_opposite_spin_correlation_energy" k _
        c1 c2 c3 c4,
      spinFam_lookup_ne "mp2_singlet_pair_energy" "mp2_triplet_pair_energy"
        "mp2_same_spin_correlation_energy" "mp2_opposite_spin_correlation_energy" k _
        m1 m2 m3 m4]
  rcases hm4 with hmethod | hmethod | hmethod | hmethod <;>
    rw [hmethod] at hk hmol ⊢
  · have hk2 : alookup (spinDecompose p0) "scf_total_energy" = none := by
      rw [hdecomp _ (by decide) (by decide) (by decide) (by decide) (by decide) (by decide)
        (by decide) (by decide)]
      exact hk
    refine parse_output_of_resolve_error report input p0 grad _ hc ?_
    rw [hmethod]
    rw [resolveFinal_to_fallback_scf report.molecule "HF" scf_maps "scf_total_energy"
      (spinDecompose p0) (by decide) (by decide) (by decide) (by decide) hk2]
    exact fallbackMol_mismatch report.molecule "HF" scf_maps.energy (spinDecompose p0) hmol
  · have hk2 : alookup (spinDecompose p0) "scf_total_energy" = none := by
      rw [hdecomp _ (by decide) (by decide) (by decide) (by decide) (by decide) (by decide)
        (by decide) (by decide)]
      exact hk
    refine parse_output_of_resolve_error report input p0 grad _ hc ?_
    rw [hmethod]
    rw [resolveFinal_to_fallback_scf report.molecule "RHF" scf_maps "scf_total_energy"
      (spinDecompose p0) (by decide) (by decide) (by decide) (by decide) hk2]
    exact fallbackMol_mismatch report.molecule "RHF" scf_maps.energy (spinDecompose p0) hmol
  · have hk2 : alookup (spinDecompose p0) "mp2_total_energy" = none := by
      rw [hdecomp _ (by decide) (by decide) (by decide) (by decide) (by decide) (by decide)
        (by decide) (by decide)]
      exact hk
    refine parse_output_of_resolve_error report input p0 grad _ hc ?_
    rw [hmethod]
    rw [resolveFinal_to_fallback_posthf report.molecule "MP2" mp2_maps "mp2_total_energy"
      (spinDecompose p0) (by decide) (by decide) (by decide) hk2]
    exact fallbackMol_mismatch report.molecule "MP2" mp2_maps.energy (spinDecompose p0) hmol
  · have hk2 : alookup (spinDecompose p0) "ccsd_total_energy" = none := by
      rw [hdecomp _ (by decide) (by decide) (by decide) (by decide) (by decide) (by decide)
        (by decide) (by decide)]
      exact hk
    refine parse_output_of_resolve_error report input p0 grad _ hc ?_
    rw [hmethod]
    rw [resolveFinal_to_fallback_posthf report.molecule "CCSD" ccsd_maps "ccsd_total_energy"
      (spinDecompose p0) (by decide) (by decide) (by decide) hk2]
    exact fallbackMol_mismatch report.molecule "CCSD" ccsd_maps.energy (spinDecompose p0) hmol

/-- Witness for C3: an MP2 request against a report whose molecule tag says
RHF and whose jobsteps never produced `mp2_total_energy` fails with
`KeyError("Could not find MP2 total energy")`. -/
theorem claim_C3_mismatch_keyerror_witness :
    inputMP2.model.method ∈ (["HF", "RHF", "MP2", "CCSD"] : List String) ∧
    collectSteps reportMismatch =
      Except.ok ([("scf_total_energy", Val.scalar (-76))], none) ∧
    alookup [("scf_total_energy", Val.scalar (-76))] (canonicalKeyD inputMP2.model.method) =
      none ∧
    reportMismatch.molecule.method ≠ inputMP2.model.method ∧
    parse_output reportMismatch inputMP2 =
      Except.error (ParseErr.keyError
        ("Could not find " ++ inputMP2.model.method ++ " total energy")) :=
  ⟨by decide, rfl, by decide, by decide,
    claim_C3_mismatch_keyerror reportMismatch inputMP2
      [("scf_total_energy", Val.scalar (-76))] none
      (by decide) rfl (by decide) (by decide)⟩

end Molpro
